import Mathlib

/-!
Verification of the synthetic Vietnamese real-estate row generator
(`generate_synthetic_vn_real_estate.py`).

The program has two parts: a row generator (`generate_row`) that builds one
11-field record per call from random draws, and a file appender
(`append_synthetic_rows`) that reads the target file's header, warns on a
length mismatch, generates `count` rows, aligns each row's width to the
header's length, and appends the aligned rows to the file.

Randomness is modelled by an explicit `RandState` record holding the outputs
of every random primitive the source calls (`random.random`, `random.gauss`,
`random.uniform`, `random.randint`, `random.choice` / `fake.random_element`),
so every source function becomes a pure function of that state.  The file
system is modelled as a map from paths to optional files, a file being the
list of CSV records it holds (the source only manipulates files through
`csv.reader` / `csv.writer`, so the record-level view is exact).
-/

/-- Source constant `PROPERTY_TYPES`. -/
def PROPERTY_TYPES : List String := ["Căn hộ, chung cư"]

/-- Source constant `TRANSACTION_TYPES`. -/
def TRANSACTION_TYPES : List String := ["Cần bán", "Cần thuê"]

/-- Source constant `CITY`. -/
def CITY : String := "Hồ Chí Minh"

/-- Source constant `DISTRICTS`: the enumeration the generator draws districts from. -/
def DISTRICTS : List String :=
  ["Quận 9", "Quận Tân Bình", "Quận Tân Phú", "Quận 7", "Quận 2", "Quận 11",
   "Quận Thủ Đức", "Huyện Bình Chánh", "Quận Bình Tân", "Quận 12", "Quận 1", "Quận 3"]

/-- Source constant `DIRECTIONS`. -/
def DIRECTIONS : List String :=
  ["Đông Bắc", "Tây", "Nam", "Tây Bắc", "Bắc", "Tây Nam", "Đông", "Đông Nam"]

/-- Source constant `LEGAL_PAPERS`. -/
def LEGAL_PAPERS : List String := ["Đã có sổ", "Đang chờ sổ", ""]

/-- Source constant `HEADER`: the generator's expected 11-entry header. -/
def HEADER : List String :=
  ["GIỐNG - LOẠI", "GIỐNG - NHU CẦU", "GIỐNG - TỈNH THÀNH", "QUẬN HUYỆN",
   "GIÁ - TRIỆU ĐỒNG", "DIỆN TÍCH - M2", "HƯỚNG", "SỐ TẦNG",
   "SỐ PHÒNG", "SỐ TOILETS", "GIẤY TỜ PHÁP LÝ"]

/-- Key "cao" (high) of the inline dict `DISTRICT_PRICE_RANGE` in `generate_row`. -/
def DISTRICT_PRICE_RANGE_cao : List String :=
  ["Quận 1", "Quận 3", "Quận 4", "Quận 5", "Quận Bình Thạnh", "Quận Phú Nhuận", "Quận 10"]

/-- Key "trung" (medium) of the inline dict `DISTRICT_PRICE_RANGE` in `generate_row`. -/
def DISTRICT_PRICE_RANGE_trung : List String :=
  ["Quận 2", "Quận 7", "Quận Tân Bình", "Quận Tân Phú", "Quận 11", "Quận 9", "Quận Thủ Đức"]

/-- Key "thap" (low) of the inline dict `DISTRICT_PRICE_RANGE` in `generate_row`. -/
def DISTRICT_PRICE_RANGE_thap : List String :=
  ["Quận 12", "Quận Bình Tân", "Huyện Bình Chánh", "Huyện Nhà Bè", "Huyện Hóc Môn"]

/-- The if / elif / else chain in `generate_row` selecting `(price_min, price_max)`
from the district (units: million dong). Districts in neither the "cao" nor the
"trung" set fall into the else branch. -/
def priceRange (district : String) : ℤ × ℤ :=
  if district ∈ DISTRICT_PRICE_RANGE_cao then (3500, 8000)
  else if district ∈ DISTRICT_PRICE_RANGE_trung then (2000, 6000)
  else (1000, 4000)

/-- The if / elif / else chain in `generate_row` selecting the bounds passed to
`random.uniform` for the area sample. -/
def areaRange (district : String) : ℚ × ℚ :=
  if district ∈ DISTRICT_PRICE_RANGE_cao then (25, 90)
  else if district ∈ DISTRICT_PRICE_RANGE_trung then (40, 120)
  else (50, 150)

/-- Python's `int()` applied to a real value: truncation toward zero. -/
def pythonInt (q : ℚ) : ℤ := if 0 ≤ q then ⌊q⌋ else ⌈q⌉

/-- The inner function `random_price` of `generate_row`: clamp the Gaussian draw `g`
to `[price_min, price_max]` with `max(price_min, min(price_max, g))`, then apply
`int()`.  The mean `(price_min + price_max) / 2` and standard deviation
`(price_max - price_min) / 6` parameterise the Gaussian sampler, whose output is
the oracle value `g` here. -/
def random_price (price_min price_max : ℤ) (g : ℚ) : ℤ :=
  pythonInt (max (price_min : ℚ) (min (price_max : ℚ) g))

/-- Source function `sometimes_empty(value_func, empty_prob)`: draw
`random.random()` (the oracle value `draw`) and return the empty string when it
falls below `empty_prob`, otherwise the produced value. -/
def sometimes_empty (draw : ℚ) (value_func : Unit → String) (empty_prob : ℚ := mkRat 15 100) :
    String :=
  if draw < empty_prob then "" else value_func ()

/-- Python's `f"{x:.1f}"` formatting: the value rounded to one decimal digit,
printed with exactly one fractional digit (areas here are positive). -/
def formatOneDec (q : ℚ) : String :=
  let n : ℤ := round (q * 10)
  toString (n / 10) ++ "." ++ toString (n.natAbs % 10)

/-- Outputs of all random primitives consumed by one `generate_row` call.
Index fields model `random.choice` / `fake.random_element` (a uniform index into
the list); `Fin 4` and `Fin 3` model `random.randint(1, 4)` and
`random.randint(1, 3)` as `1 +` the field; unit draws in `[0, 1)` model
`random.random()`; `gauss` is the raw output of `random.gauss`; `areaUnit` is the
unit draw of `random.uniform(a, b) = a + (b - a) * random()`. -/
structure RandState where
  propIdx : Fin PROPERTY_TYPES.length
  needDraw : ℚ
  needIdx : Fin TRANSACTION_TYPES.length
  districtIdx : Fin DISTRICTS.length
  priceDraw : ℚ
  gauss : ℚ
  areaUnit : ℚ
  areaDraw : ℚ
  directionIdx : Fin DIRECTIONS.length
  directionDraw : ℚ
  roomsVal : Fin 4
  roomsDraw : ℚ
  toiletsVal : Fin 3
  toiletsDraw : ℚ
  legalIdx : Fin LEGAL_PAPERS.length
  legalDraw : ℚ

/-- Source function `generate_row`: build the 11-field record in source order.
Field 2 is "Cần bán" when the 95% draw succeeds, else a uniform transaction
type; price and area ranges are conditioned on the drawn district; each
optional field goes through `sometimes_empty` with its configured probability;
the floor-count field is always the empty string. -/
def generate_row (rs : RandState) : List String :=
  let prop_type := PROPERTY_TYPES.get rs.propIdx
  let need := if rs.needDraw < mkRat 95 100 then "Cần bán" else TRANSACTION_TYPES.get rs.needIdx
  let province := CITY
  let district := DISTRICTS.get rs.districtIdx
  let pr := priceRange district
  let price := sometimes_empty rs.priceDraw
    (fun _ => toString (random_price pr.1 pr.2 rs.gauss)) (mkRat 3 100)
  let ar := areaRange district
  let area_val := ar.1 + (ar.2 - ar.1) * rs.areaUnit
  let area := sometimes_empty rs.areaDraw (fun _ => formatOneDec area_val) (mkRat 5 100)
  let direction := sometimes_empty rs.directionDraw
    (fun _ => DIRECTIONS.get rs.directionIdx) (mkRat 4 10)
  let floors := ""
  let rooms := sometimes_empty rs.roomsDraw
    (fun _ => toString (1 + (rs.roomsVal : ℕ))) (mkRat 12 100)
  let toilets := sometimes_empty rs.toiletsDraw
    (fun _ => toString (1 + (rs.toiletsVal : ℕ))) (mkRat 12 100)
  let legal := sometimes_empty rs.legalDraw
    (fun _ => LEGAL_PAPERS.get rs.legalIdx) (mkRat 25 100)
  [prop_type, need, province, district, price, area, direction, floors, rooms, toilets, legal]

/-- Source function `append_synthetic_rows`, header-reading step: the first CSV
record of the file (an empty file gives `[]` via the `StopIteration` handler),
replaced by the generator's own `HEADER` when falsy (empty). -/
def effectiveHeader (file : List (List String)) : List String :=
  let existing_header := (file.head?).getD []
  if existing_header.isEmpty then HEADER else existing_header

/-- Diagnostics printed by `append_synthetic_rows`: the header-length warning
carries both headers' contents, as the three printed lines do. -/
inductive Diag where
  | headerMismatch (existing generator : List String)
deriving DecidableEq

/-- Width alignment of one generated row to the existing header's length,
as in the loop of `append_synthetic_rows`: right-pad with empty strings when
shorter, truncate from the right when longer, else leave unchanged. -/
def alignRow (r : List String) (n : ℕ) : List String :=
  if r.length < n then r ++ List.replicate (n - r.length) ""
  else if r.length > n then r.take n
  else r

/-- File system: each path maps to a file (its list of CSV records) or to
nothing when no file exists at the path. -/
def FS := String → Option (List (List String))

/-- Outcome of one `append_synthetic_rows` call: the raised error or the
reported appended-row count, the resulting file system, and the warnings
printed along the way. -/
structure AppendOutcome where
  result : Except String ℕ
  fs : FS
  warnings : List Diag

/-- Source function `append_synthetic_rows(target_path, count)`: fail fast with
`FileNotFoundError` when the path has no file; otherwise read the effective
header, warn when its length differs from `HEADER`'s, generate `count` rows
(`range(count)` is empty for nonpositive counts), align each to the header
length, append them after the existing records without rewriting anything, and
report `len(aligned_rows)`.  The `oracle` supplies the random draws of the i-th
`generate_row` call. -/
def append_synthetic_rows (fs : FS) (target_path : String) (count : ℤ)
    (oracle : ℕ → RandState) : AppendOutcome :=
  match fs target_path with
  | none => ⟨Except.error ("Target CSV not found: " ++ target_path), fs, []⟩
  | some file =>
    let existing_header := effectiveHeader file
    let warnings :=
      if existing_header.length ≠ HEADER.length
      then [Diag.headerMismatch existing_header HEADER] else []
    let new_rows := (List.range count.toNat).map (fun i => generate_row (oracle i))
    let aligned_rows := new_rows.map (fun r => alignRow r existing_header.length)
    let fs' : FS := fun p => if p = target_path then some (file ++ aligned_rows) else fs p
    ⟨Except.ok aligned_rows.length, fs', warnings⟩

/-- Modelled from the spec's words, for comparison with `random_price` (claim
about rounding): the clamped Gaussian draw rounded to the nearest integer. -/
def random_price_rounded (price_min price_max : ℤ) (g : ℚ) : ℤ :=
  round (max (price_min : ℚ) (min (price_max : ℚ) g))

/-- Unfolded form of `generate_row`, convenient for field computations. -/
theorem generate_row_eq (rs : RandState) :
    generate_row rs =
      [PROPERTY_TYPES.get rs.propIdx,
       (if rs.needDraw < mkRat 95 100 then "Cần bán" else TRANSACTION_TYPES.get rs.needIdx),
       CITY,
       DISTRICTS.get rs.districtIdx,
       sometimes_empty rs.priceDraw
         (fun _ => toString (random_price (priceRange (DISTRICTS.get rs.districtIdx)).1
           (priceRange (DISTRICTS.get rs.districtIdx)).2 rs.gauss)) (mkRat 3 100),
       sometimes_empty rs.areaDraw
         (fun _ => formatOneDec ((areaRange (DISTRICTS.get rs.districtIdx)).1 +
           ((areaRange (DISTRICTS.get rs.districtIdx)).2 -
            (areaRange (DISTRICTS.get rs.districtIdx)).1) * rs.areaUnit)) (mkRat 5 100),
       sometimes_empty rs.directionDraw (fun _ => DIRECTIONS.get rs.directionIdx) (mkRat 4 10),
       "",
       sometimes_empty rs.roomsDraw (fun _ => toString (1 + (rs.roomsVal : ℕ))) (mkRat 12 100),
       sometimes_empty rs.toiletsDraw (fun _ => toString (1 + (rs.toiletsVal : ℕ))) (mkRat 12 100),
       sometimes_empty rs.legalDraw (fun _ => LEGAL_PAPERS.get rs.legalIdx) (mkRat 25 100)] := rfl

/-- C6: every `generate_row` call returns a record of exactly 11 string fields
(the empty string being the missing sentinel, never a null), and the 8th field
(floor count) is always the empty string. -/
theorem generate_row_shape (rs : RandState) :
    (generate_row rs).length = 11 ∧ (generate_row rs).getD 7 "nonempty" = "" :=
  ⟨rfl, rfl⟩

/-- C3: aligning a record to a target header length n gives exactly n fields —
right-padding with empty strings when shorter, truncating from the right when
longer, returning the record unchanged when equal. -/
theorem alignRow_spec (r : List String) (n : ℕ) :
    (alignRow r n).length = n ∧
    (r.length < n → alignRow r n = r ++ List.replicate (n - r.length) "") ∧
    (n < r.length → alignRow r n = r.take n) ∧
    (r.length = n → alignRow r n = r) := by
  refine ⟨?_, fun h => by simp [alignRow, h], fun h => ?_, fun h => by simp [alignRow, h]⟩
  · rcases lt_trichotomy r.length n with h | h | h
    · simp only [alignRow, if_pos h, List.length_append, List.length_replicate]
      omega
    · simp [alignRow, h]
    · simp only [alignRow, if_neg (by omega : ¬ r.length < n), if_pos h, List.length_take]
      omega
  · simp only [alignRow, if_neg (by omega : ¬ r.length < n), if_pos h]

/-- Alignment evaluated at a concrete short record. -/
theorem alignRow_spec_witness :
    (alignRow ["a"] 3).length = 3 ∧ alignRow ["a"] 3 = ["a", "", ""] :=
  ⟨(alignRow_spec ["a"] 3).1, by simpa using (alignRow_spec ["a"] 3).2.1 (by decide)⟩

/-- C7: every district the generator can draw resolves to exactly one tier: the
three tier member lists are pairwise disjoint over `DISTRICTS`, and a district
in neither the high nor the medium list receives the low band's price and area
ranges. -/
theorem district_tier_unique (d : String) (hd : d ∈ DISTRICTS) :
    ¬(d ∈ DISTRICT_PRICE_RANGE_cao ∧ d ∈ DISTRICT_PRICE_RANGE_trung) ∧
    ¬(d ∈ DISTRICT_PRICE_RANGE_cao ∧ d ∈ DISTRICT_PRICE_RANGE_thap) ∧
    ¬(d ∈ DISTRICT_PRICE_RANGE_trung ∧ d ∈ DISTRICT_PRICE_RANGE_thap) ∧
    ((d ∉ DISTRICT_PRICE_RANGE_cao ∧ d ∉ DISTRICT_PRICE_RANGE_trung) →
      priceRange d = (1000, 4000) ∧ areaRange d = (50, 150)) := by
  fin_cases hd <;> decide

/-- Tier resolution evaluated at the concrete district "Quận 12". -/
theorem district_tier_unique_witness :
    priceRange "Quận 12" = (1000, 4000) ∧ areaRange "Quận 12" = (50, 150) :=
  (district_tier_unique "Quận 12" (by decide)).2.2.2 ⟨by decide, by decide⟩

/-- Every price band has a nonnegative lower bound not exceeding its upper bound. -/
theorem priceRange_pos (d : String) :
    0 ≤ (priceRange d).1 ∧ (priceRange d).1 ≤ (priceRange d).2 := by
  unfold priceRange
  split
  · decide
  · split <;> decide

/-- The clamped, truncated price stays within the clamp bounds whenever the
lower bound is nonnegative (the truncation is then a floor). -/
theorem random_price_bounds (price_min price_max : ℤ) (g : ℚ)
    (h0 : 0 ≤ price_min) (h : price_min ≤ price_max) :
    price_min ≤ random_price price_min price_max g ∧
    random_price price_min price_max g ≤ price_max := by
  unfold random_price pythonInt
  have hcl : (price_min : ℚ) ≤ max (price_min : ℚ) (min (price_max : ℚ) g) := le_max_left _ _
  have hcu : max (price_min : ℚ) (min (price_max : ℚ) g) ≤ (price_max : ℚ) :=
    max_le (by exact_mod_cast h) (min_le_left _ _)
  have hnn : (0 : ℚ) ≤ max (price_min : ℚ) (min (price_max : ℚ) g) :=
    le_trans (by exact_mod_cast h0) hcl
  rw [if_pos hnn]
  refine ⟨Int.le_floor.mpr hcl, ?_⟩
  calc ⌊max (price_min : ℚ) (min (price_max : ℚ) g)⌋
      ≤ ⌊(price_max : ℚ)⌋ := Int.floor_le_floor hcu
    _ = price_max := Int.floor_intCast _

/-- The district field of a generated record is the drawn district. -/
theorem generate_row_district (rs : RandState) :
    (generate_row rs).getD 3 "" = DISTRICTS.get rs.districtIdx := rfl

/-- The price field of a generated record as the source computes it. -/
theorem generate_row_price (rs : RandState) :
    (generate_row rs).getD 4 "" =
      sometimes_empty rs.priceDraw
        (fun _ => toString (random_price (priceRange (DISTRICTS.get rs.districtIdx)).1
          (priceRange (DISTRICTS.get rs.districtIdx)).2 rs.gauss)) (mkRat 3 100) := rfl

/-- C4: whenever the price field of a generated record is non-empty, it is the
decimal representation of an integer lying within the price band of the
record's district tier; in particular with district "Quận 1" (high tier) the
band is [3500, 8000]. -/
theorem generate_row_price_in_tier (rs : RandState)
    (hp : (generate_row rs).getD 4 "" ≠ "") :
    (∃ v : ℤ, (generate_row rs).getD 4 "" = toString v ∧
       (priceRange ((generate_row rs).getD 3 "")).1 ≤ v ∧
       v ≤ (priceRange ((generate_row rs).getD 3 "")).2) ∧
    ((generate_row rs).getD 3 "" = "Quận 1" →
      ∃ v : ℤ, (generate_row rs).getD 4 "" = toString v ∧ 3500 ≤ v ∧ v ≤ 8000) := by
  rw [generate_row_price] at hp ⊢
  rw [generate_row_district]
  unfold sometimes_empty at hp ⊢
  by_cases hdr : rs.priceDraw < mkRat 3 100
  · exact absurd (if_pos hdr) hp
  · rw [if_neg hdr]
    have hb := random_price_bounds (priceRange (DISTRICTS.get rs.districtIdx)).1
      (priceRange (DISTRICTS.get rs.districtIdx)).2 rs.gauss
      (priceRange_pos (DISTRICTS.get rs.districtIdx)).1
      (priceRange_pos (DISTRICTS.get rs.districtIdx)).2
    constructor
    · exact ⟨_, rfl, hb.1, hb.2⟩
    · intro hq
      rw [hq] at hb ⊢
      have hpr : priceRange "Quận 1" = ((3500 : ℤ), (8000 : ℤ)) := by decide
      rw [hpr] at hb ⊢
      exact ⟨_, rfl, hb.1, hb.2⟩

/-- Concrete random-draw state: district index 10 ("Quận 1"), every
missing-value draw at 1 (so no field is blanked), Gaussian draw 5000. -/
def sampleState : RandState where
  propIdx := ⟨0, by decide⟩
  needDraw := mkRat 1 2
  needIdx := ⟨0, by decide⟩
  districtIdx := ⟨10, by decide⟩
  priceDraw := mkRat 1 1
  gauss := mkRat 5000 1
  areaUnit := mkRat 1 2
  areaDraw := mkRat 1 1
  directionIdx := ⟨0, by decide⟩
  directionDraw := mkRat 1 1
  roomsVal := ⟨0, by decide⟩
  roomsDraw := mkRat 1 1
  toiletsVal := ⟨0, by decide⟩
  toiletsDraw := mkRat 1 1
  legalIdx := ⟨0, by decide⟩
  legalDraw := mkRat 1 1

/-- Price tier property evaluated at the concrete state drawing "Quận 1". -/
theorem generate_row_price_in_tier_witness :
    (generate_row sampleState).getD 4 "" ≠ "" ∧
    ((generate_row sampleState).getD 3 "" = "Quận 1" →
      ∃ v : ℤ, (generate_row sampleState).getD 4 "" = toString v ∧ 3500 ≤ v ∧ v ≤ 8000) :=
  ⟨by decide, (generate_row_price_in_tier sampleState (by decide)).2⟩

/-- C5 counterexample: at a clamped Gaussian draw of 7999.6 (tier bounds 3500
and 8000) the code's price is 7999 — Python's `int()` truncates — whereas
rounding to the nearest integer, as the claim states, would give 8000. -/
theorem random_price_not_rounded :
    random_price 3500 8000 (mkRat 79996 10) ≠
      random_price_rounded 3500 8000 (mkRat 79996 10) ∧
    random_price 3500 8000 (mkRat 79996 10) = 7999 ∧
    random_price_rounded 3500 8000 (mkRat 79996 10) = 8000 := by
  have hc : max ((3500 : ℤ) : ℚ) (min ((8000 : ℤ) : ℚ) (mkRat 79996 10)) = mkRat 79996 10 := by
    decide
  have h1 : random_price 3500 8000 (mkRat 79996 10) = 7999 := by decide
  have h2 : random_price_rounded 3500 8000 (mkRat 79996 10) = 8000 := by
    unfold random_price_rounded
    rw [hc]
    norm_num [round_eq]
  exact ⟨by rw [h1, h2]; decide, h1, h2⟩

/-- C5 amended: the non-empty price field is the Gaussian draw clamped to the
tier's `[price_min, price_max]` and then truncated to an integer — the floor of
the clamped value, the clamp's lower bound being positive — rendered as a
string.  (The Gaussian sampler is parameterised by mean `(price_min +
price_max) / 2` and standard deviation `(price_max - price_min) / 6`; its draw
is the oracle value `gauss`.) -/
theorem generate_row_price_truncated (rs : RandState)
    (hp : (generate_row rs).getD 4 "" ≠ "") :
    (generate_row rs).getD 4 "" =
      toString ⌊max (((priceRange (DISTRICTS.get rs.districtIdx)).1 : ℚ))
        (min (((priceRange (DISTRICTS.get rs.districtIdx)).2 : ℚ)) rs.gauss)⌋ := by
  rw [generate_row_price] at hp ⊢
  unfold sometimes_empty at hp ⊢
  by_cases hdr : rs.priceDraw < mkRat 3 100
  · exact absurd (if_pos hdr) hp
  · rw [if_neg hdr]
    have hnn : (0 : ℚ) ≤ max (((priceRange (DISTRICTS.get rs.districtIdx)).1 : ℚ))
        (min (((priceRange (DISTRICTS.get rs.districtIdx)).2 : ℚ)) rs.gauss) :=
      le_trans (by exact_mod_cast (priceRange_pos (DISTRICTS.get rs.districtIdx)).1)
        (le_max_left _ _)
    unfold random_price pythonInt
    rw [if_pos hnn]

/-- Truncated-price formula evaluated at the concrete state drawing "Quận 1". -/
theorem generate_row_price_truncated_witness :
    (generate_row sampleState).getD 4 "" ≠ "" ∧
    (generate_row sampleState).getD 4 "" =
      toString ⌊max (((priceRange (DISTRICTS.get sampleState.districtIdx)).1 : ℚ))
        (min (((priceRange (DISTRICTS.get sampleState.districtIdx)).2 : ℚ)) sampleState.gauss)⌋ :=
  ⟨by decide, generate_row_price_truncated sampleState (by decide)⟩

/-- Unfolded form of `append_synthetic_rows` on an existing file. -/
theorem append_some (fs : FS) (path : String) (count : ℤ) (o : ℕ → RandState)
    (file : List (List String)) (h : fs path = some file) :
    append_synthetic_rows fs path count o =
      ⟨Except.ok ((List.range count.toNat).map
          (fun i => alignRow (generate_row (o i)) (effectiveHeader file).length)).length,
       fun p => if p = path then
           some (file ++ (List.range count.toNat).map
             (fun i => alignRow (generate_row (o i)) (effectiveHeader file).length))
         else fs p,
       if (effectiveHeader file).length ≠ HEADER.length
       then [Diag.headerMismatch (effectiveHeader file) HEADER] else []⟩ := by
  unfold append_synthetic_rows
  rw [h]
  simp only [List.map_map]
  rfl

/-- C1: with an existing file at the path and a nonnegative count, the append
succeeds, reports exactly `count` appended rows, and the appended rows are the
`count` successive Row Generator outputs, aligned and in order. -/
theorem append_count_ok (fs : FS) (path : String) (count : ℤ) (o : ℕ → RandState)
    (file : List (List String)) (h : fs path = some file) (hc : 0 ≤ count) :
    (append_synthetic_rows fs path count o).result = Except.ok count.toNat ∧
    ((count.toNat : ℤ) = count) ∧
    (append_synthetic_rows fs path count o).fs path =
      some (file ++ (List.range count.toNat).map
        (fun i => alignRow (generate_row (o i)) (effectiveHeader file).length)) := by
  rw [append_some fs path count o file h]
  exact ⟨by simp, Int.toNat_of_nonneg hc, by simp⟩

/-- A two-file file system used for evaluation: "data.csv" holds only the
generator's header; "eight.csv" holds only an 8-column header. -/
def fsSample : FS := fun p =>
  if p = "data.csv" then some [HEADER]
  else if p = "eight.csv" then some [["c1", "c2", "c3", "c4", "c5", "c6", "c7", "c8"]]
  else none

/-- Append evaluated on a concrete file system with count 2. -/
theorem append_count_ok_witness :
    fsSample "data.csv" = some [HEADER] ∧ (0 : ℤ) ≤ 2 ∧
    (append_synthetic_rows fsSample "data.csv" 2 (fun _ => sampleState)).result =
      Except.ok 2 :=
  ⟨rfl, by decide,
   (append_count_ok fsSample "data.csv" 2 (fun _ => sampleState) [HEADER] rfl (by decide)).1⟩

/-- C2: when no file exists at the path, the append fails with the
file-not-found error, the whole file system is unchanged (nothing generated,
nothing written), and in particular no file is created at the path. -/
theorem append_missing_file (fs : FS) (path : String) (count : ℤ) (o : ℕ → RandState)
    (h : fs path = none) :
    (append_synthetic_rows fs path count o).result =
      Except.error ("Target CSV not found: " ++ path) ∧
    (append_synthetic_rows fs path count o).fs = fs ∧
    (append_synthetic_rows fs path count o).fs path = none := by
  unfold append_synthetic_rows
  rw [h]
  exact ⟨rfl, rfl, h⟩

/-- Missing-file behavior evaluated at a concrete absent path. -/
theorem append_missing_file_witness :
    fsSample "missing.csv" = none ∧
    (append_synthetic_rows fsSample "missing.csv" 5 (fun _ => sampleState)).result =
      Except.error ("Target CSV not found: " ++ "missing.csv") ∧
    (append_synthetic_rows fsSample "missing.csv" 5 (fun _ => sampleState)).fs
      "missing.csv" = none :=
  ⟨rfl,
   (append_missing_file fsSample "missing.csv" 5 (fun _ => sampleState) rfl).1,
   (append_missing_file fsSample "missing.csv" 5 (fun _ => sampleState) rfl).2.2⟩

/-- C8: with an existing file the append never fails — whatever the header —
and when the effective header's length differs from the generator's 11-entry
header it emits the diagnostic carrying both headers and still proceeds. -/
theorem append_header_mismatch_warns (fs : FS) (path : String) (count : ℤ)
    (o : ℕ → RandState) (file : List (List String)) (h : fs path = some file) :
    (append_synthetic_rows fs path count o).result = Except.ok count.toNat ∧
    ((effectiveHeader file).length ≠ HEADER.length →
      (append_synthetic_rows fs path count o).warnings =
        [Diag.headerMismatch (effectiveHeader file) HEADER]) := by
  rw [append_some fs path count o file h]
  exact ⟨by simp, fun hne => by simp [hne]⟩

/-- Header-mismatch warning evaluated on the concrete 8-column file. -/
theorem append_header_mismatch_warns_witness :
    (append_synthetic_rows fsSample "eight.csv" 1 (fun _ => sampleState)).result =
      Except.ok 1 ∧
    (append_synthetic_rows fsSample "eight.csv" 1 (fun _ => sampleState)).warnings =
      [Diag.headerMismatch
        (effectiveHeader [["c1", "c2", "c3", "c4", "c5", "c6", "c7", "c8"]]) HEADER] :=
  ⟨(append_header_mismatch_warns fsSample "eight.csv" 1 (fun _ => sampleState)
      [["c1", "c2", "c3", "c4", "c5", "c6", "c7", "c8"]] rfl).1,
   (append_header_mismatch_warns fsSample "eight.csv" 1 (fun _ => sampleState)
      [["c1", "c2", "c3", "c4", "c5", "c6", "c7", "c8"]] rfl).2 (by decide)⟩

/-- C9: appending to an existing file only extends it: the resulting file is
the old records followed by the appended rows, so the pre-existing content
(header line and all prior data lines) is unchanged and a prefix of the
result. -/
theorem append_preserves_existing (fs : FS) (path : String) (count : ℤ)
    (o : ℕ → RandState) (file : List (List String)) (h : fs path = some file) :
    ∃ newRows : List (List String),
      (append_synthetic_rows fs path count o).fs path = some (file ++ newRows) ∧
      file <+: file ++ newRows := by
  refine ⟨(List.range count.toNat).map
    (fun i => alignRow (generate_row (o i)) (effectiveHeader file).length), ?_, ⟨_, rfl⟩⟩
  rw [append_some fs path count o file h]
  simp

/-- Prefix preservation evaluated on the concrete header-only file. -/
theorem append_preserves_existing_witness :
    fsSample "data.csv" = some [HEADER] ∧
    ∃ newRows : List (List String),
      (append_synthetic_rows fsSample "data.csv" 1 (fun _ => sampleState)).fs "data.csv" =
        some ([HEADER] ++ newRows) ∧ [HEADER] <+: [HEADER] ++ newRows :=
  ⟨rfl, append_preserves_existing fsSample "data.csv" 1 (fun _ => sampleState) [HEADER] rfl⟩

/-- C10: a nonpositive count is not an error: the append succeeds, generates
and writes nothing (the whole file system is unchanged), and reports zero
appended rows. -/
theorem append_nonpositive_count (fs : FS) (path : String) (count : ℤ)
    (o : ℕ → RandState) (file : List (List String)) (h : fs path = some file)
    (hc : count ≤ 0) :
    (append_synthetic_rows fs path count o).result = Except.ok 0 ∧
    (append_synthetic_rows fs path count o).fs = fs := by
  have hn : count.toNat = 0 := Int.toNat_of_nonpos hc
  rw [append_some fs path count o file h, hn]
  constructor
  · simp
  · funext p
    by_cases hp : p = path
    · subst hp; simp [h]
    · simp [hp]

/-- Nonpositive-count behavior evaluated at count -3 on the concrete file. -/
theorem append_nonpositive_count_witness :
    fsSample "data.csv" = some [HEADER] ∧ (-3 : ℤ) ≤ 0 ∧
    (append_synthetic_rows fsSample "data.csv" (-3) (fun _ => sampleState)).result =
      Except.ok 0 ∧
    (append_synthetic_rows fsSample "data.csv" (-3) (fun _ => sampleState)).fs = fsSample :=
  ⟨rfl, by decide,
   (append_nonpositive_count fsSample "data.csv" (-3) (fun _ => sampleState) [HEADER]
      rfl (by decide)).1,
   (append_nonpositive_count fsSample "data.csv" (-3) (fun _ => sampleState) [HEADER]
      rfl (by decide)).2⟩
